import Mathlib

/-!
Verification of the LePlay consent form (`consent.js`).

A shallow embedding of the consent-form logic in `src/consent.js`.  DOM
state (input values, visibility of controls, the list of child rows in
`childrenContainer`) is modelled as explicit Lean data; event handlers
become state-transforming functions; thrown JavaScript exceptions are
modelled with an explicit error component.  JavaScript `Date` values are
modelled as millisecond timestamps, with the browser's UTC offset (in
minutes, positive east of UTC) passed explicitly, because the code mixes
`new Date(y, m, d)` (local midnight) with `new Date("yyyy-mm-dd")`
(UTC midnight).
-/

namespace LePlay

/-! ## JavaScript string primitives -/

/-- The whitespace characters stripped by JavaScript `String.prototype.trim`
(restricted to the ASCII ones that can occur in the form's inputs). -/
def isJsWhitespace (c : Char) : Bool :=
  c = ' ' || c = '\t' || c = '\n' || c = '\r' || c = '\x0b' || c = '\x0c'

/-- JavaScript `s.trim()`. -/
def jsTrim (s : String) : String :=
  ⟨((s.data.dropWhile isJsWhitespace).reverse.dropWhile isJsWhitespace).reverse⟩

/-- JavaScript `s.replace(/\D/g, '')`: keep only decimal digits. -/
def jsStripNonDigits (s : String) : String :=
  ⟨s.data.filter Char.isDigit⟩

/-- JavaScript `s.slice(0, n)` for a nonnegative bound. -/
def jsSlice (s : String) (n : Nat) : String :=
  ⟨s.data.take n⟩

/-! ## Mobile number validation (`validateMobile`, lines 109–120) -/

/-- First character class of the mobile regex: `[6-9]`. -/
def isMobileStart (c : Char) : Bool := '6' ≤ c && c ≤ '9'

/-- `mobileRegex.test s` for `mobileRegex = /^[6-9][0-9]{9}$/`: an anchored
match, so the whole string is one character in `6`–`9` followed by exactly
nine characters in `0`–`9`. -/
def mobileRegexTest (s : String) : Bool :=
  match s.data with
  | c :: rest => isMobileStart c && rest.length == 9 && rest.all Char.isDigit
  | [] => false

/-- The inline error text shown by `validateMobile` (line 114–115). -/
def mobileInvalidMsg : String :=
  "Please enter a valid 10‑digit Indian mobile number starting with 6–9."

/-- Result of `validateMobile`: the returned boolean together with the error
text left visible in `mobileNumberError` (if any). -/
structure MobileValidation where
  ok : Bool
  errorShown : Option String
deriving Repr, DecidableEq

/-- `validateMobile` (lines 109–120): trims the field value, hides the
error, tests the regex, and on failure shows the error text and returns
false. -/
def validateMobile (value : String) : MobileValidation :=
  let mobile := jsTrim value
  if mobileRegexTest mobile then ⟨true, none⟩
  else ⟨false, some mobileInvalidMsg⟩

/-! ## Calendar dates and JavaScript `Date` timestamps

The code builds `twoYearsAgo` with the local-time constructor
`new Date(today.getFullYear() - 2, today.getMonth(), today.getDate())`
and parses the picker value with `new Date(dobInput.value)`, where the
value is a `yyyy-mm-dd` string (flatpickr `dateFormat: 'Y-m-d'`): per the
ECMAScript date-time string format, a date-only string is interpreted as
**UTC** midnight, while the multi-argument constructor yields **local**
midnight.  We therefore model a timestamp in milliseconds and pass the
browser's UTC offset (minutes east of UTC, e.g. +330 for IST) explicitly. -/

/-- A proleptic-Gregorian calendar date; `month` is 1-based. -/
structure Date where
  year : Nat
  month : Nat
  day : Nat
deriving Repr, DecidableEq

/-- Gregorian leap-year rule, as used by JavaScript `Date`. -/
def isLeapYear (y : Nat) : Bool :=
  y % 4 == 0 && (y % 100 != 0 || y % 400 == 0)

/-- Number of days in the given (1-based) month of the given year. -/
def daysInMonth (y m : Nat) : Nat :=
  if m = 2 then (if isLeapYear y then 29 else 28)
  else if m = 4 ∨ m = 6 ∨ m = 9 ∨ m = 11 then 30
  else 31

/-- `d` is a real calendar date. -/
def Date.valid (d : Date) : Prop :=
  1 ≤ d.month ∧ d.month ≤ 12 ∧ 1 ≤ d.day ∧ d.day ≤ daysInMonth d.year d.month

instance (d : Date) : Decidable d.valid := by
  unfold Date.valid; infer_instance

/-- Day-overflow normalization performed by the JavaScript `Date(y, m, d)`
constructor: a day count past the end of the month rolls into the
following month(s).  The fuel argument (instantiated with `d` in
`normalizeYMD`) only bounds the recursion; it is never exhausted for the
day numbers (≤ 31) a real date can supply. -/
def normalizeYMDAux : Nat → Nat → Nat → Nat → Date
  | 0, y, m, d => ⟨y, m, d⟩
  | fuel + 1, y, m, d =>
    if daysInMonth y m < d then
      if m = 12 then normalizeYMDAux fuel (y + 1) 1 (d - 31)
      else normalizeYMDAux fuel y (m + 1) (d - daysInMonth y m)
    else ⟨y, m, d⟩

/-- `new Date(y, monthIndex, day)` reduced to its calendar date (with
1-based month supplied, matching `getMonth() + 1`). -/
def normalizeYMD (y m d : Nat) : Date := normalizeYMDAux d y m d

/-- Days from 1970-01-01 (civil-from-days algorithm); all intermediate
divisions act on nonnegative values for the years this form handles. -/
def daysFromCivil (dt : Date) : Int :=
  let y : Int := if dt.month ≤ 2 then (dt.year : Int) - 1 else (dt.year : Int)
  let era : Int := (if 0 ≤ y then y else y - 399) / 400
  let yoe : Int := y - era * 400
  let mp : Int := if 2 < dt.month then (dt.month : Int) - 3 else (dt.month : Int) + 9
  let doy : Int := (153 * mp + 2) / 5 + (dt.day : Int) - 1
  let doe : Int := yoe * 365 + yoe / 4 - yoe / 100 + doy
  era * 146097 + doe - 719468

/-- Numeric value of a decimal digit character. -/
def digitVal (c : Char) : Nat := c.toNat - 48

/-- `new Date(s)` for the strings that can actually reach
`validateChildren`'s date check — the flatpickr output format
`yyyy-mm-dd` — returning the calendar date, or `none` for an invalid
date (`isNaN(dobDate.getTime())`). -/
def parseIsoDate (s : String) : Option Date :=
  match s.data with
  | [y1, y2, y3, y4, h1, m1, m2, h2, d1, d2] =>
    if y1.isDigit && y2.isDigit && y3.isDigit && y4.isDigit
        && (h1 == '-') && m1.isDigit && m2.isDigit && (h2 == '-')
        && d1.isDigit && d2.isDigit then
      let y := ((digitVal y1 * 10 + digitVal y2) * 10 + digitVal y3) * 10 + digitVal y4
      let m := digitVal m1 * 10 + digitVal m2
      let d := digitVal d1 * 10 + digitVal d2
      if 1 ≤ m ∧ m ≤ 12 ∧ 1 ≤ d ∧ d ≤ daysInMonth y m then some ⟨y, m, d⟩
      else none
    else none
  | _ => none

/-- Timestamp (ms since epoch) of `new Date("yyyy-mm-dd")`: UTC midnight. -/
def parseJsDateTs (s : String) : Option Int :=
  (parseIsoDate s).map fun d => daysFromCivil d * 86400000

/-- Timestamp of `new Date(today.getFullYear() - 2, today.getMonth(),
today.getDate())` (lines 303–304): **local** midnight of the normalized
date, i.e. UTC midnight minus the browser's UTC offset. -/
def twoYearsAgoTs (tzOffsetMin : Int) (today : Date) : Int :=
  daysFromCivil (normalizeYMD (today.year - 2) today.month today.day) * 86400000
    - tzOffsetMin * 60000

/-! ## Child rows (`addChildGroup`, `reindexChildren`, removal) -/

/-- One `.child-group` element in `childrenContainer`: its dataset index,
header text, the three input ids, the visibility of its remove button,
and the three input values. -/
structure ChildGroup where
  idx : Nat
  header : String
  nameId : String
  displayNameId : String
  dobId : String
  removeVisible : Bool
  legalName : String
  displayName : String
  dobValue : String
deriving Repr, DecidableEq

/-- A thrown JavaScript exception. -/
inductive JsError where
  | referenceError (name : String)
deriving Repr, DecidableEq

/-- One child object in a prefill response, with every field-name variant
`addChildGroup` consults; `none` models an absent (undefined) property. -/
structure ChildInput where
  legalName : Option String := none
  legalname : Option String := none
  name : Option String := none
  displayName : Option String := none
  displayname : Option String := none
  nick_name : Option String := none
  nickname : Option String := none
  dob : Option String := none
deriving Repr, DecidableEq

/-- JavaScript truthiness of an optional string: absent and `""` are falsy. -/
def jsTruthy : Option String → Bool
  | some s => s ≠ ""
  | none => false

/-- A JavaScript `a || b || … || ''` chain over possibly-absent strings. -/
def jsOrChain : List (Option String) → String
  | [] => ""
  | o :: rest => match o with
    | some s => if s ≠ "" then s else jsOrChain rest
    | none => jsOrChain rest

/-- `addChildGroup` (lines 152–248) **always throws**: line 239 executes
`group.appendChild(dobHint)`, but the declaration of `dobHint`
(lines 198–203) is commented out, so a `ReferenceError` is raised before
the date input and remove button are appended and before the group is
added to `childrenContainer`.  The container is left unchanged. -/
def addChildGroup (child : ChildInput) (container : List ChildGroup) :
    Except JsError (List ChildGroup) :=
  let _groupIndex := container.length + 1
  let _legalName := jsOrChain [child.legalName, child.legalname, child.name]
  let _displayName :=
    jsOrChain [child.displayName, child.displayname, child.displayName,
               child.nick_name, child.nickname]
  .error (.referenceError "dobHint")

/-- The `forEach((group, i) => …)` body of `reindexChildren`
(lines 345–364): position `i` (0-based) renumbers the group to `i + 1`. -/
def reindexGroup (i : Nat) (g : ChildGroup) : ChildGroup :=
  let n := i + 1
  { g with
    idx := n
    header := "Child " ++ toString n
    nameId := "childName" ++ toString n
    displayNameId := "childDisplayName" ++ toString n
    dobId := "childDOB" ++ toString n
    removeVisible := n != 1 }

/-- `reindexChildren`'s traversal of the groups in document order,
starting from 0-based position `i`. -/
def reindexFrom (i : Nat) : List ChildGroup → List ChildGroup
  | [] => []
  | g :: gs => reindexGroup i g :: reindexFrom (i + 1) gs

/-- `reindexChildren` (lines 343–365). -/
def reindexChildren (groups : List ChildGroup) : List ChildGroup :=
  reindexFrom 0 groups

/-- The remove-button click handler of the group at 1-based display
position `k` (lines 228–231): `childrenContainer.removeChild(group)`
followed by `reindexChildren()`. -/
def removeRecord (k : Nat) (groups : List ChildGroup) : List ChildGroup :=
  reindexChildren (groups.eraseIdx (k - 1))

/-- The user-facing content of a child row (the parts removal must keep
in their original relative order). -/
def groupContent (g : ChildGroup) : String × String × String :=
  (g.legalName, g.displayName, g.dobValue)

/-! ## Child validation (`validateChildren`, lines 274–322) -/

/-- Error text for a missing name or date (line 299). -/
def missingChildFieldsMsg : String := "Please enter legal name and date of birth."

/-- Error text for an unparseable date (line 310). -/
def invalidDateMsg : String := "Please select a valid date."

/-- Error text for a too-recent date of birth (line 316). -/
def tooYoungMsg : String := "Child must be at least 2 years old."

/-- Error text appended below an empty container (line 286). -/
def noChildMsg : String := "Please add at least one child."

/-- The per-group body of `validateChildren`'s `forEach` (lines 290–320):
the error span appended to the group, or `none` if the record is
accepted.  `tzOffsetMin` is the browser's UTC offset in minutes and
`today` the local calendar date of `new Date()`. -/
def childGroupError (tzOffsetMin : Int) (today : Date) (g : ChildGroup) :
    Option String :=
  if jsTrim g.legalName = "" ∨ g.dobValue = "" then some missingChildFieldsMsg
  else
    match parseJsDateTs g.dobValue with
    | none => some invalidDateMsg
    | some dobTs =>
      if twoYearsAgoTs tzOffsetMin today < dobTs then some tooYoungMsg
      else none

/-- What `validateChildren` leaves behind when it returns normally. -/
structure ChildrenValidation where
  valid : Bool
  groupErrors : List (Option String)
  containerChildren : List ChildGroup
  containerError : Option String
deriving Repr, DecidableEq

/-- `validateChildren` (lines 274–322).  With an empty container it calls
`addChildGroup()` (line 281), which throws (see `addChildGroup`), so the
function never returns, no row is inserted, and the "please add at least
one child" error (lines 284–287) is never appended; the `.ok` branch for
that call is therefore dead code, kept for fidelity to lines 282–288.
With a nonempty container it applies the per-group check. -/
def validateChildren (tzOffsetMin : Int) (today : Date)
    (groups : List ChildGroup) : Except JsError ChildrenValidation :=
  if groups.isEmpty then
    match addChildGroup {} groups with
    | .error e => .error e
    | .ok inserted =>
      .ok { valid := false
            groupErrors := []
            containerChildren := inserted
            containerError := some noChildMsg }
  else
    .ok { valid := groups.all fun g => (childGroupError tzOffsetMin today g).isNone
          groupErrors := groups.map (childGroupError tzOffsetMin today)
          containerChildren := groups
          containerError := none }

/-! ## Consent text (`getChildData`, `composeConsentText`) -/

/-- One element of `getChildData`'s result (lines 261–265). -/
structure ChildData where
  legalname : String
  displayname : String
  dob : String
deriving Repr, DecidableEq

/-- `getChildData` (lines 254–268): trimmed name inputs plus the raw date
value, per group in document order. -/
def getChildData (groups : List ChildGroup) : List ChildData :=
  groups.map fun g =>
    { legalname := jsTrim g.legalName
      displayname := jsTrim g.displayName
      dob := g.dobValue }

/-- The mapped name of one child (lines 330–334).  `c.legalname || c.name`
falls back to the object's `name` property, which `getChildData` never
sets, so an empty `legalname` leaves the JavaScript value `undefined`
(modelled as `none`); inside the template literal it prints as the text
`"undefined"`. -/
def childNameJs (c : ChildData) : Option String :=
  let legalName : Option String := if c.legalname ≠ "" then some c.legalname else none
  if c.displayname ≠ "" then
    some ((match legalName with | some s => s | none => "undefined")
      ++ " (" ++ c.displayname ++ ")")
  else legalName

/-- `Array.prototype.join(', ')` (line 334): `undefined` elements render
as the empty string. -/
def joinComma (parts : List (Option String)) : String :=
  String.intercalate ", " (parts.map fun p => p.getD "")

/-- The fixed text around the two interpolations of the template literal
at line 336: prefix, middle, and suffix. -/
def consentBefore : String := "I, "

/-- Text between the parent name and the child-name list (line 336). -/
def consentMiddle : String := ", as the parent/guardian of "

/-- Text after the child-name list (line 336). -/
def consentAfter : String := ", hereby give consent for my child/children to participate in activities at LePlay – Little Engineers Playground, operated by FOREVER KID LLP. I acknowledge that participation involves inherent risks and agree that I will not hold the company liable for any injury or loss incurred while my child/children are on the premises. By signing below, I confirm that the information provided is accurate and that I have read and understood this consent form."

/-- `composeConsentText` (lines 329–337). -/
def composeConsentText (parentName : String) (children : List ChildData) :
    String :=
  let childNames := joinComma (children.map childNameJs)
  consentBefore ++ parentName ++ consentMiddle ++ childNames ++ consentAfter

/-- The composition as claim C4 words it: each child's name is the legal
name, with " (displayName)" appended exactly when a non-empty display
name is present.  Stated from the claim, to be compared with
`composeConsentText` (which is translated from the code). -/
def claimedChildName (c : ChildData) : String :=
  if c.displayname ≠ "" then c.legalname ++ " (" ++ c.displayname ++ ")"
  else c.legalname

/-- The full output as claim C4 words it. -/
def claimedComposeConsentText (parentName : String)
    (children : List ChildData) : String :=
  consentBefore ++ parentName ++ consentMiddle
    ++ String.intercalate ", " (children.map claimedChildName) ++ consentAfter

/-! ## Form state and event handlers -/

/-- The DOM state the handlers read and write: current step, the two
step-1 fields (with error display), the parent-name section, the
existing-customer flag, and the contents of `childrenContainer`. -/
structure FormState where
  step : Nat
  mobileValue : String
  mobileErrorShown : Option String
  parentNameValue : String
  parentNameReadOnly : Bool
  parentNameSectionVisible : Bool
  isExistingCustomer : Bool
  children : List ChildGroup
deriving Repr, DecidableEq

/-- The page as loaded: step 1 visible, everything empty. -/
def initialFormState : FormState :=
  { step := 1
    mobileValue := ""
    mobileErrorShown := none
    parentNameValue := ""
    parentNameReadOnly := false
    parentNameSectionVisible := false
    isExistingCustomer := false
    children := [] }

/-- The `input` handler on the mobile field (lines 33–40): sanitize the
value to at most ten digits and clear every prefill left-over. -/
def mobileInputEvent (st : FormState) : FormState :=
  { st with
    mobileValue := jsSlice (jsStripNonDigits st.mobileValue) 10
    isExistingCustomer := false
    parentNameReadOnly := false
    parentNameValue := ""
    children := [] }

/-! ## Prefill (`fetchExistingConsent`, `populateExistingData`) -/

/-- The `data` object of a lookup response (or the response itself in the
unwrapped shape): the two properties `populateExistingData` reads.
`children = none` models an absent or non-array property
(`Array.isArray` fails). -/
structure PrefillData where
  parentName : Option String
  children : Option (List ChildInput)
deriving Repr, DecidableEq

/-- The parsed JSON body of a successful lookup: the `exists` flag, the
optional `data` wrapper, and the response's own `parentName` /
`children` properties for the unwrapped shape. -/
structure LookupJson where
  exists_ : Bool
  data : Option PrefillData
  parentName : Option String
  children : Option (List ChildInput)
deriving Repr, DecidableEq

/-- `json.data || json` (line 399): the wrapped `data` object when
present (objects are truthy), else the response itself viewed as a
`PrefillData`. -/
def LookupJson.effectiveData (j : LookupJson) : PrefillData :=
  match j.data with
  | some d => d
  | none => ⟨j.parentName, j.children⟩

/-- Outcome of the lookup request issued by `fetchExistingConsent`. -/
inductive LookupResponse where
  | networkError
  | httpNotOk
  | ok (json : LookupJson)
deriving Repr, DecidableEq

/-- The `forEach` over `data.children` (lines 379–382): add a group per
child; `addChildGroup` throws on the first child (see `addChildGroup`),
aborting the loop with the state mutated so far. -/
def addChildrenLoop : List ChildInput → FormState → FormState × Option JsError
  | [], st => (st, none)
  | c :: cs, st =>
    match addChildGroup c st.children with
    | .error e => (st, some e)
    | .ok groups => addChildrenLoop cs { st with children := groups }

/-- `populateExistingData` (lines 371–384): set the parent name when the
property is truthy; when `children` is an array, clear the container and
add a group per child (returning the exception, if one escapes). -/
def populateExistingData (d : PrefillData) (st : FormState) :
    FormState × Option JsError :=
  let st :=
    match d.parentName with
    | some p => if p ≠ "" then { st with parentNameValue := p } else st
    | none => st
  match d.children with
  | none => (st, none)
  | some cs => addChildrenLoop cs { st with children := [] }

/-- `fetchExistingConsent` (lines 390–408).  A non-OK response returns
early; a body with a truthy `exists` sets the flag and populates (any
exception, including the `dobHint` `ReferenceError`, lands in the
`catch`, which resets the flag to false); anything else, and any network
error, leaves the flag false.  No error is ever surfaced to the user. -/
def fetchExistingConsent (resp : LookupResponse) (st : FormState) :
    FormState :=
  match resp with
  | .networkError => { st with isExistingCustomer := false }
  | .httpNotOk => st
  | .ok j =>
    if j.exists_ then
      let st := { st with isExistingCustomer := true }
      match populateExistingData j.effectiveData st with
      | (st', none) => st'
      | (st', some _) => { st' with isExistingCustomer := false }
    else { st with isExistingCustomer := false }

/-- Result of running a click handler: the final DOM state, the alerts
shown, and the exception that escaped the handler, if any. -/
structure HandlerResult where
  state : FormState
  alerts : List String
  thrown : Option JsError
deriving Repr, DecidableEq

/-- The `nextToDetailsBtn` click handler (lines 411–433): validate the
mobile, hard-reset the prefill state, fetch and prefill, show the name
section with read-only tracking the existing-customer flag, ensure at
least one child group, and show step 2.  The `addChildGroup()` call at
line 430 throws (see `addChildGroup`), so when the container is empty
the handler dies before `showStep(2)`. -/
def nextToDetailsClick (resp : LookupResponse) (st : FormState) :
    HandlerResult :=
  let mv := validateMobile st.mobileValue
  let st := { st with mobileErrorShown := mv.errorShown }
  if !mv.ok then ⟨st, [], none⟩
  else
    let st := { st with
      isExistingCustomer := false
      parentNameReadOnly := false
      parentNameValue := ""
      children := [] }
    let st := fetchExistingConsent resp st
    let st := { st with
      parentNameSectionVisible := true
      parentNameReadOnly := st.isExistingCustomer }
    if st.children.isEmpty then
      match addChildGroup {} st.children with
      | .error e => ⟨st, [], some e⟩
      | .ok groups => ⟨{ st with children := groups, step := 2 }, [], none⟩
    else ⟨{ st with step := 2 }, [], none⟩

/-- A run of the handler on a "new customer" response
(`{ exists: false }`), the baseline failing prefills must match. -/
def newCustomerRun (st : FormState) : HandlerResult :=
  nextToDetailsClick (.ok ⟨false, none, none, none⟩) st

/-- A lookup that fails: network error, non-OK HTTP status, or a body
whose `exists` flag is false. -/
def failingLookup : LookupResponse → Prop
  | .networkError => True
  | .httpNotOk => True
  | .ok j => j.exists_ = false

/-! ## Submission (`finishBtn` click handler, lines 494–581) -/

/-- The JSON payload of the submission POST (lines 520–525). -/
structure SubmitPayload where
  parentName : String
  mobile : String
  children : List ChildData
  signature : String
deriving Repr, DecidableEq

/-- How far the `finishBtn` handler gets before (or whether) it issues
the POST: an empty signature or missing mobile shows an alert and
returns without any network call; otherwise the payload is built and
POSTed. -/
inductive FinishOutcome where
  | blockedSignature (alertText : String)
  | blockedMobile (alertText : String)
  | submitted (payload : SubmitPayload)
deriving Repr, DecidableEq

/-- The alert for an empty signature (line 497). -/
def emptySignatureMsg : String := "Please provide your signature before finishing."

/-- The alert for a missing mobile number (line 508). -/
def missingMobileMsg : String :=
  "Mobile number is missing. Please go back and enter your mobile number."

/-- The `finishBtn` click handler up to the POST decision
(lines 494–537): signature check, mobile check, payload construction,
network call. -/
def finishClick (signatureIsEmpty : Bool) (signatureDataUrl : String)
    (st : FormState) : FinishOutcome :=
  if signatureIsEmpty then .blockedSignature emptySignatureMsg
  else
    let mobile := jsTrim st.mobileValue
    if mobile = "" then .blockedMobile missingMobileMsg
    else
      .submitted
        { parentName := jsTrim st.parentNameValue
          mobile := mobile
          children := getChildData st.children
          signature := signatureDataUrl }

/-! ## Instantiated data and claim-level specifications -/

/-- A child row holding the exact two-years-ago boundary date for a local
`today` of 2025-10-12 (so `dateOfBirth = 2023-10-12`). -/
def boundaryGroup : ChildGroup :=
  { idx := 1
    header := "Child 1"
    nameId := "childName1"
    displayNameId := "childDisplayName1"
    dobId := "childDOB1"
    removeVisible := false
    legalName := "B"
    displayName := ""
    dobValue := "2023-10-12" }

/-- The same row with a date of birth one day after the boundary. -/
def dayLaterGroup : ChildGroup := { boundaryGroup with dobValue := "2023-10-13" }

/-- Three populated child rows, as the container would hold them. -/
def sampleGroups : List ChildGroup :=
  [ { idx := 1, header := "Child 1", nameId := "childName1"
      displayNameId := "childDisplayName1", dobId := "childDOB1"
      removeVisible := false, legalName := "Asha", displayName := ""
      dobValue := "2019-05-01" }
  , { idx := 2, header := "Child 2", nameId := "childName2"
      displayNameId := "childDisplayName2", dobId := "childDOB2"
      removeVisible := true, legalName := "Bala", displayName := "Bee"
      dobValue := "2018-07-02" }
  , { idx := 3, header := "Child 3", nameId := "childName3"
      displayNameId := "childDisplayName3", dobId := "childDOB3"
      removeVisible := true, legalName := "Chitra", displayName := ""
      dobValue := "2017-01-15" } ]

/-- Claim C2's conclusion for a container `groups` and removed 1-based
position `k`: the survivors keep their original relative contents and
carry labels, ids and indices `1 … n-1`, and the first remaining record's
remove control is hidden. -/
def removalRelabelsSpec (groups : List ChildGroup) (k : Nat) : Prop :=
  (removeRecord k groups).length = groups.length - 1
  ∧ (removeRecord k groups).map groupContent
      = (groups.eraseIdx (k - 1)).map groupContent
  ∧ (∀ i (h : i < (removeRecord k groups).length),
      ((removeRecord k groups).get ⟨i, h⟩).idx = i + 1
      ∧ ((removeRecord k groups).get ⟨i, h⟩).header = "Child " ++ toString (i + 1)
      ∧ ((removeRecord k groups).get ⟨i, h⟩).nameId = "childName" ++ toString (i + 1)
      ∧ ((removeRecord k groups).get ⟨i, h⟩).displayNameId
          = "childDisplayName" ++ toString (i + 1)
      ∧ ((removeRecord k groups).get ⟨i, h⟩).dobId = "childDOB" ++ toString (i + 1)
      ∧ ((removeRecord k groups).get ⟨i, h⟩).removeVisible = ((i + 1 : Nat) != 1))
  ∧ ∀ h : 0 < (removeRecord k groups).length,
      ((removeRecord k groups).get ⟨0, h⟩).removeVisible = false

/-- Claim C9's ordering conclusion: after `reindexChildren`, position `i`
(0-based) carries display number `i + 1` on its index, header and ids. -/
def reindexOrderedSpec (groups : List ChildGroup) : Prop :=
  ∀ i (h : i < (reindexChildren groups).length),
    ((reindexChildren groups).get ⟨i, h⟩).idx = i + 1
    ∧ ((reindexChildren groups).get ⟨i, h⟩).header = "Child " ++ toString (i + 1)
    ∧ ((reindexChildren groups).get ⟨i, h⟩).nameId = "childName" ++ toString (i + 1)
    ∧ ((reindexChildren groups).get ⟨i, h⟩).displayNameId
        = "childDisplayName" ++ toString (i + 1)
    ∧ ((reindexChildren groups).get ⟨i, h⟩).dobId = "childDOB" ++ toString (i + 1)

/-- The single child object of claim C5's lookup response. -/
def prefillChildB : ChildInput := { legalname := some "B", dob := some "2020-01-01" }

/-- Claim C5's wrapped response body:
`{exists:true, data:{parentName:"A", children:[{legalname:"B", dob:"2020-01-01"}]}}`. -/
def wrappedLookup : LookupJson :=
  { exists_ := true
    data := some ⟨some "A", some [prefillChildB]⟩
    parentName := none
    children := none }

/-- Claim C5's unwrapped response body (no `data` wrapper). -/
def unwrappedLookup : LookupJson :=
  { exists_ := true
    data := none
    parentName := some "A"
    children := some [prefillChildB] }

/-- Step 1 with a valid mobile number typed in. -/
def mobileEnteredState : FormState :=
  { initialFormState with mobileValue := "9876543210" }

/-- Claim C7's conclusion for response `resp` and state `st`: the failing
lookup is indistinguishable from a fresh `{exists:false}` customer — same
handler result, no alert, and an empty session with the
existing-customer flag down. -/
def prefillSwallowedSpec (resp : LookupResponse) (st : FormState) : Prop :=
  nextToDetailsClick resp st = newCustomerRun st
  ∧ (nextToDetailsClick resp st).alerts = []
  ∧ (nextToDetailsClick resp st).state.isExistingCustomer = false
  ∧ (nextToDetailsClick resp st).state.parentNameValue = ""
  ∧ (nextToDetailsClick resp st).state.parentNameReadOnly = false
  ∧ (nextToDetailsClick resp st).state.children = []

/-- A child record with an empty legal name but a non-empty display name
(the input on which claim C4's wording and the code disagree). -/
def emptyNameChild : ChildData := ⟨"", "Nick", "2020-01-01"⟩

/-- Two well-formed children for the consent-text witness. -/
def namedChildren : List ChildData :=
  [⟨"Bala", "Bee", "2018-07-02"⟩, ⟨"Chitra", "", "2017-01-15"⟩]

/-! ## Helper lemmas -/

theorem reindexFrom_length (i : Nat) (gs : List ChildGroup) :
    (reindexFrom i gs).length = gs.length := by
  induction gs generalizing i with
  | nil => rfl
  | cons g gs ih => simp [reindexFrom, ih]

theorem reindexFrom_get (gs : List ChildGroup) (i j : Nat)
    (h : j < (reindexFrom i gs).length) (h' : j < gs.length) :
    (reindexFrom i gs).get ⟨j, h⟩ = reindexGroup (i + j) (gs.get ⟨j, h'⟩) := by
  induction gs generalizing i j with
  | nil => cases h'
  | cons g gs ih =>
    cases j with
    | zero => rfl
    | succ j =>
      have hh : j < (reindexFrom (i + 1) gs).length := by
        rw [reindexFrom_length]
        exact Nat.lt_of_succ_lt_succ h'
      have hgoal := ih (i + 1) j hh (Nat.lt_of_succ_lt_succ h')
      simpa [reindexFrom, Nat.add_assoc, Nat.add_comm 1 j] using hgoal

theorem reindexGroup_content (i : Nat) (g : ChildGroup) :
    groupContent (reindexGroup i g) = groupContent g := rfl

theorem reindexFrom_map_content (i : Nat) (gs : List ChildGroup) :
    (reindexFrom i gs).map groupContent = gs.map groupContent := by
  induction gs generalizing i with
  | nil => rfl
  | cons g gs ih => simp [reindexFrom, reindexGroup_content, ih]

theorem reindexGroup_idem (i : Nat) (g : ChildGroup) :
    reindexGroup i (reindexGroup i g) = reindexGroup i g := rfl

theorem reindexFrom_idem (i : Nat) (gs : List ChildGroup) :
    reindexFrom i (reindexFrom i gs) = reindexFrom i gs := by
  induction gs generalizing i with
  | nil => rfl
  | cons g gs ih => simp [reindexFrom, reindexGroup_idem, ih]

/-! ## Claim C2 -/

/-- C2: for every container of `n ≥ 2` child records and every removable
position `k ≥ 2`, removing record `k` leaves `n - 1` records whose
contents keep their original relative order and whose display labels,
dataset indices and field identifiers run `1 … n-1`; the record now at
position 1 has its remove control hidden. -/
theorem removeRecord_relabels (groups : List ChildGroup) (k : Nat)
    (hk2 : 2 ≤ k) (hkn : k ≤ groups.length) : removalRelabelsSpec groups k := by
  have hlt : k - 1 < groups.length := by omega
  have herase : (groups.eraseIdx (k - 1)).length = groups.length - 1 := by
    rw [List.length_eraseIdx]
    simp [hlt]
  unfold removalRelabelsSpec removeRecord reindexChildren
  refine ⟨?_, ?_, ?_, ?_⟩
  · rw [reindexFrom_length, herase]
  · exact reindexFrom_map_content 0 _
  · intro i h
    have h' : i < (groups.eraseIdx (k - 1)).length := by
      rw [← reindexFrom_length 0]
      exact h
    rw [reindexFrom_get _ 0 i h h']
    simp [reindexGroup]
  · intro h
    have h' : 0 < (groups.eraseIdx (k - 1)).length := by
      rw [← reindexFrom_length 0]
      exact h
    rw [reindexFrom_get _ 0 0 h h']
    simp [reindexGroup]

/-- Witness for C2: removing record 2 from the three sample records. -/
theorem removeRecord_relabels_witness :
    2 ≤ 2 ∧ 2 ≤ sampleGroups.length ∧ removalRelabelsSpec sampleGroups 2 :=
  ⟨by decide, by decide, removeRecord_relabels sampleGroups 2 (by decide) (by decide)⟩

/-! ## Claim C9 -/

/-- C9: `reindexChildren` is idempotent — a second application changes no
label, dataset index or field identifier — and the numbers it assigns
follow the records' positional order: position `i` (0-based) always
receives number `i + 1`. -/
theorem reindexChildren_idempotent_ordered (groups : List ChildGroup) :
    reindexChildren (reindexChildren groups) = reindexChildren groups
    ∧ reindexOrderedSpec groups := by
  constructor
  · exact reindexFrom_idem 0 groups
  · intro i h
    have h' : i < groups.length := by
      have := h
      unfold reindexChildren at this
      rw [reindexFrom_length] at this
      exact this
    unfold reindexChildren at h ⊢
    rw [reindexFrom_get _ 0 i h h']
    simp [reindexGroup]

/-- Witness for C9 at the three sample records. -/
theorem reindexChildren_idempotent_ordered_witness :
    reindexChildren (reindexChildren sampleGroups) = reindexChildren sampleGroups
    ∧ reindexOrderedSpec sampleGroups :=
  reindexChildren_idempotent_ordered sampleGroups

/-! ## Claim C3 -/

theorem isJsWhitespace_eq_false_of_isDigit (c : Char) (hc : c.isDigit = true) :
    isJsWhitespace c = false := by
  have h1 : c ≠ ' ' := by rintro rfl; exact absurd hc (by decide)
  have h2 : c ≠ '\t' := by rintro rfl; exact absurd hc (by decide)
  have h3 : c ≠ '\n' := by rintro rfl; exact absurd hc (by decide)
  have h4 : c ≠ '\r' := by rintro rfl; exact absurd hc (by decide)
  have h5 : c ≠ '\x0b' := by rintro rfl; exact absurd hc (by decide)
  have h6 : c ≠ '\x0c' := by rintro rfl; exact absurd hc (by decide)
  simp [isJsWhitespace, h1, h2, h3, h4, h5, h6]

theorem dropWhile_eq_self_of_no_ws (l : List Char)
    (h : ∀ c ∈ l, isJsWhitespace c = false) :
    l.dropWhile isJsWhitespace = l := by
  cases l with
  | nil => rfl
  | cons c cs => simp [List.dropWhile, h c (by simp)]

theorem jsTrim_eq_self_of_digits (s : String)
    (h : s.data.all Char.isDigit = true) : jsTrim s = s := by
  have hd : ∀ c ∈ s.data, isJsWhitespace c = false := fun c hc =>
    isJsWhitespace_eq_false_of_isDigit c (List.all_eq_true.mp h c hc)
  have h1 : s.data.dropWhile isJsWhitespace = s.data :=
    dropWhile_eq_self_of_no_ws _ hd
  have h2 : s.data.reverse.dropWhile isJsWhitespace = s.data.reverse :=
    dropWhile_eq_self_of_no_ws _ fun c hc => hd c (List.mem_reverse.mp hc)
  unfold jsTrim
  rw [h1, h2, List.reverse_reverse]

/-- Counterexample to C3 as stated: `validateMobile` trims the field
value before testing the regex, so the input `" 9876543210"` passes
validation even though the string itself does not match
`^[6-9]\d{9}$`. -/
theorem validateMobile_trim_counterexample :
    (validateMobile " 9876543210").ok = true
    ∧ mobileRegexTest " 9876543210" = false := by decide

/-- C3 (amended): validation passes iff the **whitespace-trimmed** input
matches `^[6-9]\d{9}$`; on failure the invalid-mobile error text is
shown; and on the digit-only values the sanitized mobile field can
actually hold, validation passes iff the string itself matches the
pattern. -/
theorem validateMobile_iff_trimmed_match (s : String) :
    ((validateMobile s).ok = true ↔ mobileRegexTest (jsTrim s) = true)
    ∧ ((validateMobile s).ok = false →
        (validateMobile s).errorShown = some mobileInvalidMsg)
    ∧ (s.data.all Char.isDigit = true →
        ((validateMobile s).ok = true ↔ mobileRegexTest s = true)) := by
  refine ⟨?_, ?_, ?_⟩
  · cases h : mobileRegexTest (jsTrim s) <;> simp [validateMobile, h]
  · cases h : mobileRegexTest (jsTrim s) <;> simp [validateMobile, h]
  · intro hdig
    have htr := jsTrim_eq_self_of_digits s hdig
    simp only [validateMobile, htr]
    cases h : mobileRegexTest s <;> simp [h]

/-- Witness for C3's amended theorem at the digit-only input
`"9876543210"`. -/
theorem validateMobile_iff_trimmed_match_witness :
    ("9876543210" : String).data.all Char.isDigit = true
    ∧ ((validateMobile "9876543210").ok = true
        ↔ mobileRegexTest "9876543210" = true) :=
  ⟨by decide, (validateMobile_iff_trimmed_match "9876543210").2.2 (by decide)⟩

/-! ## Claim C4 -/

theorem childNameJs_getD (c : ChildData) (hc : c.legalname ≠ "") :
    (childNameJs c).getD "" = claimedChildName c := by
  unfold childNameJs claimedChildName
  by_cases hd : c.displayname = "" <;> simp [hc, hd]

theorem map_childNameJs_eq (cs : List ChildData)
    (h : ∀ c ∈ cs, c.legalname ≠ "") :
    (cs.map childNameJs).map (fun p => p.getD "") = cs.map claimedChildName := by
  rw [List.map_map]
  exact List.map_congr_left fun c hc => childNameJs_getD c (h c hc)

/-- Counterexample to C4 as stated over all inputs: with an empty legal
name and the display name "Nick", the `c.legalname || c.name` fallback
hits the absent `name` property, and the template literal renders the
child as `"undefined (Nick)"` — not as the legal name followed by the
parenthesized display name. -/
theorem composeConsentText_undefined_counterexample :
    composeConsentText "Parent" [emptyNameChild]
      ≠ claimedComposeConsentText "Parent" [emptyNameChild] := by decide

/-- C4 (amended): composition is pure and deterministic, and whenever
every child holds a non-empty legal name (which step-2 validation
guarantees at the call site), the output is the fixed statement
interpolating the parent name and the ", "-joined child names, each
being the legal name with " (displayName)" appended exactly when a
non-empty display name is present; a child with an empty legal name
instead renders through JavaScript's `undefined` fallback. -/
theorem composeConsentText_pure_and_joins (p : String) (cs : List ChildData)
    (h : ∀ c ∈ cs, c.legalname ≠ "") :
    composeConsentText p cs = composeConsentText p cs
    ∧ composeConsentText p cs = claimedComposeConsentText p cs := by
  refine ⟨rfl, ?_⟩
  unfold composeConsentText claimedComposeConsentText joinComma
  rw [map_childNameJs_eq cs h]

/-- Witness for C4's amended theorem: two named children. -/
theorem composeConsentText_pure_and_joins_witness :
    (∀ c ∈ namedChildren, c.legalname ≠ "")
    ∧ (composeConsentText "Asha" namedChildren
          = composeConsentText "Asha" namedChildren
        ∧ composeConsentText "Asha" namedChildren
          = claimedComposeConsentText "Asha" namedChildren) :=
  ⟨by decide, composeConsentText_pure_and_joins "Asha" namedChildren (by decide)⟩

/-! ## Claim C1 -/

/-- C1, evaluated at the failing input: with local date 2025-10-12,
the boundary date of birth 2023-10-12 (exactly today − 2 years) is
**rejected** with the at-least-2-years error in any browser east of UTC
(here IST, offset +330 min), because `new Date("2023-10-12")` is UTC
midnight while `new Date(2023, 9, 12)` is local midnight.  At offset 0
the code behaves as the claim says: the boundary is accepted and one day
later is rejected — which identifies the rejection east of UTC as a
timezone slip, not intent (the date picker's own `maxDate` offers
exactly the boundary date). -/
theorem boundaryDob_rejected_east_of_utc :
    childGroupError 330 ⟨2025, 10, 12⟩ boundaryGroup = some tooYoungMsg
    ∧ childGroupError 0 ⟨2025, 10, 12⟩ boundaryGroup = none
    ∧ childGroupError 0 ⟨2025, 10, 12⟩ dayLaterGroup = some tooYoungMsg
    ∧ childGroupError 330 ⟨2025, 10, 12⟩ dayLaterGroup = some tooYoungMsg
    ∧ validateChildren 330 ⟨2025, 10, 12⟩ [boundaryGroup]
        = .ok ⟨false, [some tooYoungMsg], [boundaryGroup], none⟩
    ∧ validateChildren 0 ⟨2025, 10, 12⟩ [boundaryGroup]
        = .ok ⟨true, [none], [boundaryGroup], none⟩ := by
  refine ⟨by decide, by decide, by decide, by decide, rfl, rfl⟩

/-! ## Claim C5 -/

/-- C5, evaluated at the claim's own prefill response (wrapped and
unwrapped shapes): `addChildGroup` throws the `dobHint` `ReferenceError`
(line 239 references the declaration commented out at lines 198–203), so
no child row is created; the exception is caught by
`fetchExistingConsent`, whose catch resets `isExistingCustomer` to
false, so the parent-name field stays editable; the retry at line 430
throws again and the handler dies before `showStep(2)`.  Only the
parent-name value "A" survives. -/
theorem prefill_response_throws_no_rows :
    (nextToDetailsClick (.ok wrappedLookup) mobileEnteredState).thrown
        = some (.referenceError "dobHint")
    ∧ (nextToDetailsClick (.ok wrappedLookup) mobileEnteredState).state.children = []
    ∧ (nextToDetailsClick (.ok wrappedLookup) mobileEnteredState).state.isExistingCustomer
        = false
    ∧ (nextToDetailsClick (.ok wrappedLookup) mobileEnteredState).state.parentNameReadOnly
        = false
    ∧ (nextToDetailsClick (.ok wrappedLookup) mobileEnteredState).state.parentNameValue
        = "A"
    ∧ (nextToDetailsClick (.ok wrappedLookup) mobileEnteredState).state.step = 1
    ∧ nextToDetailsClick (.ok unwrappedLookup) mobileEnteredState
        = nextToDetailsClick (.ok wrappedLookup) mobileEnteredState := by decide

/-! ## Claim C8 -/

/-- C8, evaluated at the failing input (an empty container at validation
time): `validateChildren` calls `addChildGroup()`, which throws the
`dobHint` `ReferenceError` before the new row or the "please add at
least one child" error is appended, so validation never returns false
and no empty record is inserted — for every timezone, date and container
state that reaches the call. -/
theorem validateChildren_empty_throws :
    validateChildren 330 ⟨2025, 10, 12⟩ [] = .error (.referenceError "dobHint")
    ∧ ∀ (tz : Int) (today : Date) (child : ChildInput)
        (container : List ChildGroup),
        validateChildren tz today [] = .error (.referenceError "dobHint")
        ∧ addChildGroup child container = .error (.referenceError "dobHint") :=
  ⟨rfl, fun _ _ _ _ => ⟨rfl, rfl⟩⟩

/-! ## Claim C6 -/

/-- C6: whenever the signature canvas is empty, the finish handler stops
at the signature check — the user gets the signature alert and no POST
payload is ever built or sent, whatever the form state. -/
theorem finishClick_empty_signature_no_post (st : FormState) (sig : String) :
    finishClick true sig st = .blockedSignature emptySignatureMsg
    ∧ ∀ payload : SubmitPayload, finishClick true sig st ≠ .submitted payload :=
  ⟨rfl, fun _ h => FinishOutcome.noConfusion h⟩

/-- Witness for C6 at the initial form state. -/
theorem finishClick_empty_signature_no_post_witness :
    finishClick true "data:image/png" initialFormState
      = .blockedSignature emptySignatureMsg :=
  (finishClick_empty_signature_no_post initialFormState "data:image/png").1

/-! ## Claim C7 -/

theorem nextToDetails_failing_eval (st : FormState) (resp : LookupResponse)
    (htest : mobileRegexTest (jsTrim st.mobileValue) = true)
    (hfail : failingLookup resp) :
    nextToDetailsClick resp st =
      ⟨{ st with mobileErrorShown := none, isExistingCustomer := false,
                 parentNameReadOnly := false, parentNameValue := "",
                 children := [], parentNameSectionVisible := true },
       [], some (.referenceError "dobHint")⟩ := by
  cases resp with
  | networkError =>
    simp [nextToDetailsClick, validateMobile, htest, fetchExistingConsent,
      addChildGroup]
  | httpNotOk =>
    simp [nextToDetailsClick, validateMobile, htest, fetchExistingConsent,
      addChildGroup]
  | ok j =>
    have hj : j.exists_ = false := hfail
    simp [nextToDetailsClick, validateMobile, htest, fetchExistingConsent, hj,
      addChildGroup]

/-- C7: a failing prefill lookup — network error, non-OK HTTP response,
or a body with `exists: false` — is swallowed: the handler shows no
alert, the session stays empty with `isExistingCustomer` false and the
parent-name field editable, and the whole handler run is equal to the
new-customer run. -/
theorem failing_prefill_swallowed (st : FormState) (resp : LookupResponse)
    (hmob : (validateMobile st.mobileValue).ok = true)
    (hfail : failingLookup resp) :
    prefillSwallowedSpec resp st := by
  have htest : mobileRegexTest (jsTrim st.mobileValue) = true := by
    cases h : mobileRegexTest (jsTrim st.mobileValue)
    · simp [validateMobile, h] at hmob
    · rfl
  have h1 := nextToDetails_failing_eval st resp htest hfail
  have h2 := nextToDetails_failing_eval st (.ok ⟨false, none, none, none⟩)
    htest rfl
  unfold prefillSwallowedSpec newCustomerRun
  rw [h1, h2]
  exact ⟨rfl, rfl, rfl, rfl, rfl, rfl⟩

/-- Witness for C7: a network error during lookup for a valid mobile. -/
theorem failing_prefill_swallowed_witness :
    (validateMobile mobileEnteredState.mobileValue).ok = true
    ∧ failingLookup .networkError
    ∧ prefillSwallowedSpec .networkError mobileEnteredState :=
  ⟨by decide, trivial,
    failing_prefill_swallowed mobileEnteredState .networkError (by decide) trivial⟩

/-! ## Claim C10 -/

/-- C10: after the mobile field's input handler runs, the field holds
only decimal digits, at most ten of them, and the prefill state is fully
reset: the existing-customer flag is down, the parent-name field is
empty and editable, and every child row is gone. -/
theorem mobileInput_sanitizes_and_resets (st : FormState) :
    (mobileInputEvent st).mobileValue.data.all Char.isDigit = true
    ∧ (mobileInputEvent st).mobileValue.length ≤ 10
    ∧ (mobileInputEvent st).isExistingCustomer = false
    ∧ (mobileInputEvent st).parentNameValue = ""
    ∧ (mobileInputEvent st).parentNameReadOnly = false
    ∧ (mobileInputEvent st).children = [] := by
  refine ⟨?_, ?_, rfl, rfl, rfl, rfl⟩
  · exact List.all_eq_true.mpr fun c hc =>
      List.of_mem_filter (List.mem_of_mem_take hc)
  · show ((st.mobileValue.data.filter Char.isDigit).take 10).length ≤ 10
    rw [List.length_take]
    exact min_le_left _ _

end LePlay
